import Mathlib

/-
Verification of the odin chat client (odin.py, the superset variant of the
two near-duplicate scripts) against its specification.

Shallow embedding conventions:
  * Python strings are Lean `String`s; character-level processing goes
    through `String.data : List Char`.  Python's `str.strip()` is embedded
    as `pyStrip` (drop whitespace from both ends), `str.lower()` as a
    character map with `Char.toLower`, `str.isalpha()` / `str.isspace()`
    as `Char.isAlpha` / `Char.isWhitespace` (ASCII semantics; every claim
    below only exercises ASCII inputs or is predicate-generic).
  * The JSON request body built by `send_gpt_request` is an association
    list `List (String × JValue)`; a key is "present" when it occurs in
    the list, matching the conditional `data['max_tokens'] = max_tokens`.
  * HTTP is abstracted by passing the response (status code and
    `choices[0].message.content`) as arguments; `raise_for_status`
    mirrors `requests.Response.raise_for_status` (raises for
    400 <= status < 600).
  * `sys.exit` / raised exceptions become explicit result constructors.
  * Filesystem state is passed explicitly: the set of file names present
    in the conversation directory is a `List String`, POSIX paths are a
    flag for absoluteness plus a component list (pathlib drops `.`
    components and a path never stores them).
-/

/-- A conversation turn, `{'role': ..., 'content': ...}`. -/
structure Turn where
  role : String
  content : String
deriving DecidableEq, Repr

/-- JSON values appearing in the request body built by `send_gpt_request`. -/
inductive JValue where
  | jstr (s : String)
  | jnum (q : Rat)
  | jmsgs (ts : List Turn)
deriving DecidableEq, Repr

/-- Python `str.strip()` on the character list: drop whitespace from both ends. -/
def pyStrip (l : List Char) : List Char :=
  ((l.dropWhile Char.isWhitespace).reverse.dropWhile Char.isWhitespace).reverse

/-- Python `str.strip()` on strings. -/
def pyStripStr (s : String) : String :=
  String.mk (pyStrip s.data)

/-- Python `str.lower()` (ASCII semantics). -/
def pyLower (s : String) : String :=
  String.mk (s.data.map Char.toLower)

/-- The slug filter from `generate_slogan`:
`''.join(c for c in response if c.isalpha() or c.isspace())`. -/
def letterSpaceFilter (s : String) : String :=
  String.mk (s.data.filter fun c => c.isAlpha || c.isWhitespace)

/-- Python `str.replace(' ', '_')`: the pattern is a single character, so
this is a character map. -/
def underscoreSpaces (s : String) : String :=
  String.mk (s.data.map fun c => if c = ' ' then '_' else c)

/-- The post-processing in `generate_slogan` (odin.py lines 72-77):
lowercase, keep only letters and whitespace, strip, then replace spaces
with underscores. -/
def sloganPostProcess (response : String) : String :=
  underscoreSpaces (pyStripStr (letterSpaceFilter (pyLower response)))

/-- `requests.Response.raise_for_status()`: raises `HTTPError` exactly for
status codes in [400, 600). -/
def raise_for_status (status : Nat) : Except Nat Unit :=
  if 400 ≤ status ∧ status < 600 then .error status else .ok ()

/-- `send_gpt_request` (odin.py lines 80-93).  The HTTP layer is abstracted
by the `status` and `content` arguments (`content` stands for
`response.json()['choices'][0]['message']['content']`).  Returns the
request body it posts together with either the raised status or the
stripped reply text. -/
def send_gpt_request (conversation_history : List Turn) (max_tokens : Option Nat)
    (temperature : Rat) (model : String) (status : Nat) (content : String) :
    List (String × JValue) × Except Nat String :=
  let data : List (String × JValue) :=
    [("messages", JValue.jmsgs conversation_history),
     ("model", JValue.jstr model),
     ("temperature", JValue.jnum temperature)]
    ++ (match max_tokens with
        | some n => [("max_tokens", JValue.jnum (n : Rat))]
        | none => [])
  (data,
   match raise_for_status status with
   | .error e => .error e
   | .ok () => .ok (pyStripStr content))

/-- The fixed system instruction of the slogan request (odin.py lines 57-63). -/
def sloganSystemMessage : String :=
  "Summarize this text in max three words. The summary should provide the clearest possible understanding of the text in this minimal format."

/-- The default model name, `API_DEFAULT_MODEL`. -/
def API_DEFAULT_MODEL : String := "gpt-3.5-turbo"

/-- `generate_slogan` (odin.py lines 56-77): a secondary request with
temperature 0.7 and max_tokens 10, whose successful reply is
post-processed into a slug. -/
def generate_slogan (prompt : String) (status : Nat) (content : String) :
    List (String × JValue) × Except Nat String :=
  let r := send_gpt_request
    [⟨"system", sloganSystemMessage⟩, ⟨"user", prompt⟩]
    (some 10) (7 / 10) API_DEFAULT_MODEL status content
  (r.1, r.2.map sloganPostProcess)

/-- The candidate file names tried by the disambiguation loop:
`slogan.json`, `slogan_1.json`, `slogan_2.json`, ... -/
def candidate (slogan : String) (n : Nat) : String :=
  if n = 0 then slogan ++ ".json" else slogan ++ "_" ++ toString n ++ ".json"

/-- The `while (CONVERSATIONS_DIR / filename).exists()` loop of odin.py
lines 138-142, with `existing` the file names present in the conversation
directory.  `fuel` bounds the iteration count; `chooseFilename` supplies
enough fuel for a free name to be found. -/
def chooseFilenameAux (slogan : String) (existing : List String) :
    Nat → Nat → String
  | n, 0 => candidate slogan n
  | n, fuel + 1 =>
    if candidate slogan n ∈ existing then
      chooseFilenameAux slogan existing (n + 1) fuel
    else
      candidate slogan n

/-- New-conversation filename selection (odin.py lines 136-142). -/
def chooseFilename (slogan : String) (existing : List String) : String :=
  chooseFilenameAux slogan existing 0 (existing.length + 1)

/-- `continue_conversation` (odin.py lines 96-101): the turn list loaded
from the file with one system turn appended. -/
def continue_conversation (loaded : List Turn) (system_message : String) :
    List Turn :=
  loaded ++ [⟨"system", system_message⟩]

/-- `signal_handler` (odin.py lines 20-25): returns the lines printed and
the exit status.  A stored conversation file is a `some` path (a `Path`
object is always truthy in Python). -/
def signal_handler (interactive_mode : Bool) (conversation_file : Option String) :
    List String × Nat :=
  match interactive_mode, conversation_file with
  | true, some p => (["", "Conversation stored in " ++ p, ""], 0)
  | _, _ => ([""], 0)

/-- Outcome of `load_api_key`: either a key or `sys.exit(code)` after
printing `msgs`. -/
inductive KeyOutcome where
  | ok (key : String)
  | exitErr (code : Nat) (msgs : List String)
deriving DecidableEq, Repr

/-- `stat.S_IRWXG`: group read/write/execute bits (0o70). -/
def stat_S_IRWXG : Nat := 56

/-- `stat.S_IRWXO`: other read/write/execute bits (0o7). -/
def stat_S_IRWXO : Nat := 7

/-- The two lines printed when neither key source is available
(odin.py lines 35-36). -/
def missingKeyMsgs : List String :=
  ["Error: API key not found in environment variable and file not found at the specified location.",
   "Please ensure that your API key is located at ~/.openai/apikey or set in the OPENAI_APIKEY environment variable."]

/-- The permission warning printed for an insecure key file
(odin.py lines 40-42; the three string literals concatenate to one line). -/
def insecureKeyMsgs : List String :=
  ["Error: API key file should not be accessible (readable, writable, or executable) by anyone other than the user."]

/-- `load_api_key` (odin.py lines 27-48).  `env` is
`os.environ.get('OPENAI_APIKEY')`; an empty string is falsy in Python, so
it falls through to the key file, described by `fileExists`, its
`st_mode`, and its `contents`. -/
def load_api_key (env : Option String) (fileExists : Bool) (mode : Nat)
    (contents : String) : KeyOutcome :=
  if (env.getD "") ≠ "" then
    .ok (pyStripStr (env.getD ""))
  else if ¬ fileExists then
    .exitErr 1 missingKeyMsgs
  else if mode &&& (stat_S_IRWXG ||| stat_S_IRWXO) ≠ 0 then
    .exitErr 1 insecureKeyMsgs
  else
    .ok (pyStripStr contents)

/-- `main` calls `load_api_key()` on its first line (odin.py line 117);
when that exits, none of the later HTTP requests happen.  `rest` stands
for the request bodies the rest of `main` would post. -/
def mainRequests (k : KeyOutcome) (rest : List (List (String × JValue))) :
    List (List (String × JValue)) :=
  match k with
  | .ok _ => rest
  | .exitErr _ _ => []

/-- State threaded through the chat loop: the in-memory conversation, the
lines printed so far, the files written (path and serialized turn list),
and the number of request/response exchanges performed by the loop. -/
structure LoopState where
  history : List Turn
  prints : List String
  writes : List (String × List Turn)
  exchanges : Nat
deriving DecidableEq, Repr

/-- The `while True` loop of odin.py lines 144-165.  `message` is the
pending user message, `moreMessages` the further interactive inputs, and
`replies` the successive successful model replies (one consumed per
iteration; an exhausted reply stream stops the loop, standing in for the
fatal HTTP error path). -/
def runLoop (interactive_mode : Bool) (filename : String) :
    String → List String → List String → LoopState → LoopState
  | _, _, [], st => st
  | message, moreMessages, r :: rs, st =>
    let h1 := st.history ++ [⟨"user", message⟩, ⟨"assistant", r⟩]
    let p1 := st.prints ++ ["ChatGPT: " ++ r]
    let w1 := if interactive_mode then st.writes ++ [(filename, h1)] else st.writes
    let st1 : LoopState := ⟨h1, p1, w1, st.exchanges + 1⟩
    if interactive_mode then
      match moreMessages with
      | [] => st1
      | m :: ms => runLoop interactive_mode filename m ms rs st1
    else
      st1

/-- A POSIX path as `pathlib` stores it: an absoluteness flag and the
component list.  `pathlib` drops `.` components when parsing, so a
component list coming from a path string never contains `"."`. -/
structure PyPath where
  absolute : Bool
  components : List String
deriving DecidableEq, Repr

/-- `Path.expanduser()`: a relative path whose first component is `~` is
replaced by the home directory. -/
def expanduser (home : List String) (p : PyPath) : PyPath :=
  match p.absolute, p.components with
  | false, "~" :: rest => ⟨true, home ++ rest⟩
  | _, _ => p

/-- `Path.__truediv__` (the `/` operator): joining with an absolute path
discards the left operand. -/
def pathJoin (a b : PyPath) : PyPath :=
  if b.absolute then b else ⟨a.absolute, a.components ++ b.components⟩

/-- Normalize a component list of an absolute path the way the OS resolves
it: `.` is dropped, `..` pops a component (at the root it is a no-op). -/
def normAux : List String → List String → List String
  | acc, [] => acc.reverse
  | acc, c :: cs =>
    if c = "." then normAux acc cs
    else if c = ".." then normAux acc.tail cs
    else normAux (c :: acc) cs

/-- Resolve a path against the current working directory `cwd` (given as
absolute components) to the absolute component list of the file it names. -/
def resolvePath (cwd : List String) (p : PyPath) : List String :=
  if p.absolute then normAux [] p.components else normAux [] (cwd ++ p.components)

/-- `CONVERSATIONS_DIR = Path('~/.openai/conversations/').expanduser()`. -/
def conversationsDir (home : List String) : PyPath :=
  ⟨true, home ++ [".openai", "conversations"]⟩

/-- The file resume mode loads from:
`Path(args.file).expanduser()` (odin.py line 130), resolved. -/
def resumeLoadPath (home cwd : List String) (fileArg : PyPath) : List String :=
  resolvePath cwd (expanduser home fileArg)

/-- The file resume mode writes to: `CONVERSATIONS_DIR / filename` with
`filename = args.file` raw (odin.py lines 132 and 157), resolved. -/
def resumeWritePath (home cwd : List String) (fileArg : PyPath) : List String :=
  resolvePath cwd (pathJoin (conversationsDir home) fileArg)

/-- `p` names a file strictly inside the directory `dir` (both given as
resolved absolute component lists). -/
def insideDir (dir p : List String) : Bool :=
  dir.isPrefixOf p && decide (dir.length < p.length)

/-! ### Helper lemmas -/

theorem toLower_isAlpha_false {c : Char} (h : c.isAlpha = false) :
    (c.toLower).isAlpha = false := by
  by_cases hc : c.toNat ≥ 65 ∧ c.toNat ≤ 90
  · exfalso
    have hu : c.isUpper = true := by
      simp only [Char.isUpper, Bool.and_eq_true, decide_eq_true_eq, ge_iff_le,
        UInt32.le_def, BitVec.le_def]
      simp only [Char.toNat, UInt32.toNat] at hc
      have h65 : (UInt32.toBitVec 65).toNat = 65 := rfl
      have h90 : (UInt32.toBitVec 90).toNat = 90 := rfl
      constructor <;> omega
    simp [Char.isAlpha, hu] at h
  · simpa [Char.toLower, hc] using h

theorem mem_of_mem_pyStrip {c : Char} {l : List Char} (h : c ∈ pyStrip l) : c ∈ l := by
  unfold pyStrip at h
  rw [List.mem_reverse] at h
  have h1 := (List.dropWhile_sublist _).subset h
  rw [List.mem_reverse] at h1
  exact (List.dropWhile_sublist _).subset h1

theorem sloganPostProcess_of_no_alpha {s : String}
    (h : ∀ c ∈ s.data, c.isAlpha = false) : sloganPostProcess s = "" := by
  have hall : ∀ c ∈ (s.data.map Char.toLower).filter
      (fun c => c.isAlpha || c.isWhitespace), c.isWhitespace = true := by
    intro c hc
    rw [List.mem_filter] at hc
    obtain ⟨hmem, hp⟩ := hc
    rw [List.mem_map] at hmem
    obtain ⟨a, ha, rfl⟩ := hmem
    have hna := toLower_isAlpha_false (h a ha)
    simpa [hna] using hp
  have hstrip : pyStrip ((s.data.map Char.toLower).filter
      (fun c => c.isAlpha || c.isWhitespace)) = [] := by
    unfold pyStrip
    rw [List.dropWhile_eq_nil_iff.mpr hall]
    rfl
  have hrw : sloganPostProcess s =
      String.mk ((pyStrip ((s.data.map Char.toLower).filter
        (fun c => c.isAlpha || c.isWhitespace))).map
          (fun c => if c = ' ' then '_' else c)) := rfl
  rw [hrw, hstrip]
  rfl

theorem chooseFilenameAux_first_free (slogan : String) (existing : List String) :
    ∀ (j k fuel : Nat), j ≤ fuel →
      candidate slogan (k + j) ∉ existing →
      (∀ i, i < j → candidate slogan (k + i) ∈ existing) →
      chooseFilenameAux slogan existing k fuel = candidate slogan (k + j) := by
  intro j
  induction j with
  | zero =>
    intro k fuel _ hfree _
    cases fuel with
    | zero => simp [chooseFilenameAux]
    | succ f =>
      simp only [chooseFilenameAux]
      rw [if_neg (by simpa using hfree)]
      simp
  | succ j ih =>
    intro k fuel hle hfree hall
    cases fuel with
    | zero => omega
    | succ f =>
      have h0 : candidate slogan k ∈ existing := by
        have := hall 0 (Nat.succ_pos j)
        simpa using this
      simp only [chooseFilenameAux]
      rw [if_pos h0]
      have hstep := ih (k + 1) f (by omega)
        (by rw [show k + 1 + j = k + (j + 1) by omega]; exact hfree)
        (fun i hi => by
          rw [show k + 1 + i = k + (i + 1) by omega]
          exact hall (i + 1) (by omega))
      rw [hstep]
      congr 1
      omega

theorem normAux_append (a : List String) :
    ∀ (b acc : List String), normAux acc (a ++ b) = normAux (normAux acc a).reverse b := by
  induction a with
  | nil => intro b acc; simp [normAux]
  | cons c cs ih =>
    intro b acc
    by_cases h1 : c = "."
    · simp [normAux, h1, ih]
    · by_cases h2 : c = ".."
      · simp [normAux, h1, h2, ih]
      · simp [normAux, h1, h2, ih]

theorem normAux_no_dots (b : List String) :
    ∀ acc, (∀ c ∈ b, c ≠ "." ∧ c ≠ "..") → normAux acc b = acc.reverse ++ b := by
  induction b with
  | nil => intro acc _; simp [normAux]
  | cons c cs ih =>
    intro acc h
    have hc := h c (List.mem_cons_self _ _)
    simp only [normAux, if_neg hc.1, if_neg hc.2]
    rw [ih (c :: acc) (fun d hd => h d (List.mem_cons_of_mem _ hd))]
    simp

theorem isPrefixOf_append_self (a b : List String) : a.isPrefixOf (a ++ b) = true := by
  induction a with
  | nil => simp [List.isPrefixOf]
  | cons c cs ih => simp [List.isPrefixOf, ih]

/-! ### Claim theorems -/

/-- Claim C1: in new-conversation mode the chosen filename is the first name
in the sequence `slogan.json`, `slogan_1.json`, `slogan_2.json`, ... that
does not exist in the conversation directory; in particular for slogan
`"launch"` with `launch.json` and `launch_1.json` present the conversation
is saved as `launch_2.json`. -/
theorem chooseFilename_first_free (slogan : String) (existing : List String) (n : Nat)
    (hn : n ≤ existing.length)
    (hfree : candidate slogan n ∉ existing)
    (hall : ∀ m, m < n → candidate slogan m ∈ existing) :
    chooseFilename slogan existing = candidate slogan n ∧
    chooseFilename "launch" ["launch.json", "launch_1.json"] = "launch_2.json" := by
  constructor
  · unfold chooseFilename
    have := chooseFilenameAux_first_free slogan existing n 0 (existing.length + 1)
      (by omega) (by simpa using hfree) (by simpa using hall)
    simpa using this
  · decide

/-- Witness for C1 at slogan `"launch"` with `launch.json` and
`launch_1.json` already present. -/
theorem chooseFilename_first_free_witness :
    chooseFilename "launch" ["launch.json", "launch_1.json"] = candidate "launch" 2 ∧
    chooseFilename "launch" ["launch.json", "launch_1.json"] = "launch_2.json" :=
  chooseFilename_first_free "launch" ["launch.json", "launch_1.json"] 2
    (by decide) (by decide) (by decide)

/-- Claim C2: in piped (non-interactive) mode the chat loop performs exactly
one request/response exchange, prints the reply prefixed with `ChatGPT: `,
terminates after that single exchange (further replies and messages are
never consumed), and writes no file to the conversation directory. -/
theorem runLoop_piped_single_exchange (filename message r : String)
    (moreMessages replies : List String) (h0 : List Turn) :
    runLoop false filename message moreMessages (r :: replies) ⟨h0, [], [], 0⟩ =
      ⟨h0 ++ [⟨"user", message⟩, ⟨"assistant", r⟩], ["ChatGPT: " ++ r], [], 1⟩ := by
  unfold runLoop
  simp

/-- Claim C4: resuming a conversation appends exactly one system turn
carrying the configured system message at the end; the loaded turn list is
a strict prefix of the result, nothing dropped, edited or reordered. -/
theorem continue_conversation_appends_system (loaded : List Turn) (system_message : String) :
    continue_conversation loaded system_message = loaded ++ [⟨"system", system_message⟩] ∧
    loaded <+: continue_conversation loaded system_message ∧
    loaded ≠ continue_conversation loaded system_message := by
  refine ⟨rfl, ⟨[⟨"system", system_message⟩], rfl⟩, ?_⟩
  intro h
  have hlen := congrArg List.length h
  simp [continue_conversation] at hlen

/-- Claim C7: the letter/space filter used in slug derivation is
idempotent. -/
theorem letterSpaceFilter_idempotent (s : String) :
    letterSpaceFilter (letterSpaceFilter s) = letterSpaceFilter s := by
  simp [letterSpaceFilter, List.filter_filter, Bool.and_self]

/-- Claim C8: the interrupt handler always exits with status 0, and when a
conversation file has been established in interactive mode it prints that
file's path before exiting. -/
theorem signal_handler_exit_zero (interactive_mode : Bool)
    (conversation_file : Option String) (p : String) :
    (signal_handler interactive_mode conversation_file).2 = 0 ∧
    (signal_handler true (some p)).1 = ["", "Conversation stored in " ++ p, ""] := by
  constructor
  · cases interactive_mode <;> cases conversation_file <;> rfl
  · rfl

/-- Claim C3: the credential loader returns the environment key when set;
otherwise it reads the key file, exiting with status 1 and an explicit
message when the file is absent or when its permission bits grant any
access to group or other; in the insecure-permissions case the rest of
`main` never runs, so no HTTP request is made. -/
theorem load_api_key_spec (k contents : String) (fileExists : Bool) (mode : Nat)
    (rest : List (List (String × JValue)))
    (hk : k ≠ "")
    (hm : mode &&& (stat_S_IRWXG ||| stat_S_IRWXO) ≠ 0) :
    load_api_key (some k) fileExists mode contents = .ok (pyStripStr k) ∧
    load_api_key none false mode contents = .exitErr 1 missingKeyMsgs ∧
    load_api_key none true mode contents = .exitErr 1 insecureKeyMsgs ∧
    mainRequests (load_api_key none true mode contents) rest = [] := by
  refine ⟨?_, ?_, ?_, ?_⟩
  · simp [load_api_key, hk]
  · simp [load_api_key]
  · simp [load_api_key, hm]
  · simp [load_api_key, hm, mainRequests]

/-- Witness for C3: environment key `"sk-test"`, and a key file with the
group-read bit set (mode 0o40). -/
theorem load_api_key_spec_witness :
    load_api_key (some "sk-test") true 32 "filekey" = .ok (pyStripStr "sk-test") ∧
    load_api_key none false 32 "filekey" = .exitErr 1 missingKeyMsgs ∧
    load_api_key none true 32 "filekey" = .exitErr 1 insecureKeyMsgs ∧
    mainRequests (load_api_key none true 32 "filekey") [] = [] :=
  load_api_key_spec "sk-test" "filekey" true 32 [] (by decide) (by decide)

/-- Claim C5: the request body always contains the full turn list, the
temperature and the model name; it contains `max_tokens` if and only if a
token limit was provided; on a non-success status the call raises the
status, otherwise it returns `choices[0].message.content` stripped. -/
theorem send_gpt_request_spec (history : List Turn) (mt : Option Nat)
    (temp : Rat) (model : String) (status : Nat) (content : String) :
    (send_gpt_request history mt temp model status content).1.lookup "messages" =
      some (JValue.jmsgs history) ∧
    (send_gpt_request history mt temp model status content).1.lookup "model" =
      some (JValue.jstr model) ∧
    (send_gpt_request history mt temp model status content).1.lookup "temperature" =
      some (JValue.jnum temp) ∧
    (send_gpt_request history mt temp model status content).1.lookup "max_tokens" =
      mt.map (fun n => JValue.jnum (n : Rat)) ∧
    (("max_tokens" ∈ (send_gpt_request history mt temp model status content).1.map Prod.fst)
      ↔ mt ≠ none) ∧
    (send_gpt_request history mt temp model status content).2 =
      (if 400 ≤ status ∧ status < 600 then Except.error status
       else Except.ok (pyStripStr content)) := by
  refine ⟨?_, ?_, ?_, ?_, ?_, ?_⟩ <;>
    cases mt <;>
    by_cases h : 400 ≤ status ∧ status < 600 <;>
    simp [send_gpt_request, raise_for_status, List.lookup, h]

/-- Claim C6: the slogan generator issues its secondary request with
temperature 0.7 and a max-token budget of 10, and post-processes a
successful reply by lowercasing, keeping only letters and whitespace,
stripping, and replacing spaces with underscores; for reply
`"Warm Greeting"` the slug is `"warm_greeting"`. -/
theorem generate_slogan_spec (prompt : String) (status : Nat) (content : String) :
    (generate_slogan prompt status content).1.lookup "temperature" =
      some (JValue.jnum (7 / 10)) ∧
    (generate_slogan prompt status content).1.lookup "max_tokens" =
      some (JValue.jnum 10) ∧
    (generate_slogan prompt status content).2 =
      (if 400 ≤ status ∧ status < 600 then Except.error status
       else Except.ok (sloganPostProcess (pyStripStr content))) ∧
    sloganPostProcess (pyStripStr "Warm Greeting") = "warm_greeting" := by
  refine ⟨?_, ?_, ?_, by decide⟩ <;>
    by_cases h : 400 ≤ status ∧ status < 600 <;>
    simp [generate_slogan, send_gpt_request, raise_for_status, List.lookup, Except.map, h]

/-- Claim C10: when the slogan reply contains no alphabetic character the
slug is the empty string, and the new-conversation filename becomes
`.json` exactly, or `_1.json`, `_2.json`, ... when that name already
exists in the conversation directory. -/
theorem empty_slug_filename (prompt content : String) (status : Nat)
    (halpha : ∀ c ∈ content.data, c.isAlpha = false)
    (hok : status < 400) :
    (generate_slogan prompt status content).2 = .ok "" ∧
    chooseFilename "" [] = ".json" ∧
    chooseFilename "" [".json"] = "_1.json" ∧
    chooseFilename "" [".json", "_1.json"] = "_2.json" := by
  refine ⟨?_, by decide, by decide, by decide⟩
  have hraise : ¬ (400 ≤ status ∧ status < 600) := by omega
  have h2 : (generate_slogan prompt status content).2 =
      Except.ok (sloganPostProcess (pyStripStr content)) := by
    simp [generate_slogan, send_gpt_request, raise_for_status, Except.map, hraise]
  rw [h2, sloganPostProcess_of_no_alpha]
  intro c hc
  exact halpha c (mem_of_mem_pyStrip hc)

/-- Witness for C10: reply `"1234!?"` (digits and punctuation only) with a
successful status. -/
theorem empty_slug_filename_witness :
    (generate_slogan "hi" 200 "1234!?").2 = .ok "" ∧
    chooseFilename "" [] = ".json" ∧
    chooseFilename "" [".json"] = "_1.json" ∧
    chooseFilename "" [".json", "_1.json"] = "_2.json" :=
  empty_slug_filename "hi" "1234!?" 200 (by decide) (by decide)

/-- Counterexample to claim C9 as stated: with home `/home/u`, current
working directory equal to the conversation directory, and relative
`--file ../x`, the load path resolves outside the conversation directory,
yet the per-turn write path is exactly the loaded file (it would be
overwritten, and no separate file appears under the directory). -/
theorem resume_path_claim_false :
    insideDir
      (resolvePath ["home", "u", ".openai", "conversations"]
        (conversationsDir ["home", "u"]))
      (resumeLoadPath ["home", "u"] ["home", "u", ".openai", "conversations"]
        ⟨false, ["..", "x"]⟩) = false ∧
    resumeWritePath ["home", "u"] ["home", "u", ".openai", "conversations"]
      ⟨false, ["..", "x"]⟩ =
      resumeLoadPath ["home", "u"] ["home", "u", ".openai", "conversations"]
        ⟨false, ["..", "x"]⟩ := by
  decide

/-- Claim C9 (amended): for every nonempty relative `--file` argument with
no parent-directory (`..`) component that does not resolve inside the
conversation directory, the loaded file is never overwritten and a
separate file is created under the conversation directory.  (`pathlib`
drops `.` components when parsing, so a parsed component list contains
none; the hypothesis `hdots` records both facts.) -/
theorem resume_path_separate_file (home cwd f : List String)
    (hne : f ≠ [])
    (hdots : ∀ c ∈ f, c ≠ "." ∧ c ≠ "..")
    (hout : insideDir (resolvePath cwd (conversationsDir home))
      (resumeLoadPath home cwd ⟨false, f⟩) = false) :
    insideDir (resolvePath cwd (conversationsDir home))
      (resumeWritePath home cwd ⟨false, f⟩) = true ∧
    resumeWritePath home cwd ⟨false, f⟩ ≠ resumeLoadPath home cwd ⟨false, f⟩ := by
  have hD : resolvePath cwd (conversationsDir home) =
      normAux [] (home ++ [".openai", "conversations"]) := rfl
  have hw : resumeWritePath home cwd ⟨false, f⟩ =
      normAux [] (home ++ [".openai", "conversations"]) ++ f := by
    show normAux [] ((home ++ [".openai", "conversations"]) ++ f) = _
    rw [normAux_append, normAux_no_dots f _ hdots]
    simp
  have hin : insideDir (resolvePath cwd (conversationsDir home))
      (resumeWritePath home cwd ⟨false, f⟩) = true := by
    rw [hD, hw]
    unfold insideDir
    rw [isPrefixOf_append_self]
    simp [List.length_append]
    exact List.length_pos.mpr hne
  refine ⟨hin, ?_⟩
  intro heq
  rw [heq] at hin
  rw [hin] at hout
  cases hout

/-- Witness for C9 (amended): home `/h`, cwd `/c`, `--file x`. -/
theorem resume_path_separate_file_witness :
    insideDir (resolvePath ["c"] (conversationsDir ["h"]))
      (resumeWritePath ["h"] ["c"] ⟨false, ["x"]⟩) = true ∧
    resumeWritePath ["h"] ["c"] ⟨false, ["x"]⟩ ≠
      resumeLoadPath ["h"] ["c"] ⟨false, ["x"]⟩ :=
  resume_path_separate_file ["h"] ["c"] ["x"] (by decide) (by decide) (by decide)
